import Mathlib

/-!
Shallow embedding of the NomadFlow budget-calculator core (src/script.js).

JavaScript numbers are modelled as `JSNum`: either a finite rational or one
of the non-finite values `nan`, `inf`, `ninf`.  Finite arithmetic is exact
rational arithmetic; `Math.floor` is `Int.floor` and `Math.round` is
`⌊x + 1/2⌋` (JavaScript rounds half toward +∞).  The `||` operator on
numbers is modelled by `jsOrQ` (a number is falsy exactly when it is 0;
`undefined` is modelled by `Option.none`).
-/

/-- Model of a JavaScript number: a finite rational or NaN / ±Infinity. -/
inductive JSNum where
  | fin (q : ℚ)
  | nan
  | inf
  | ninf
deriving DecidableEq, Repr

/-- JavaScript `isFinite`. -/
def JSNum.isFinite : JSNum → Bool
  | .fin _ => true
  | _ => false

/-- JavaScript `Math.floor` on a finite number (computable floor on ℚ). -/
def jsFloor (q : ℚ) : ℤ := Rat.floor q

/-- JavaScript `Math.round`: round half toward positive infinity. -/
def jsRound (q : ℚ) : ℤ := jsFloor (q + 1/2)

/-- JavaScript `a || b` for an optionally-present number `a` (absent or
zero falls through to `b`). -/
def jsOrQ (a : Option ℚ) (b : ℚ) : ℚ :=
  match a with
  | some x => if x = 0 then b else x
  | none => b

/-- JavaScript object property access on a string-keyed table. -/
def assocLookup {β : Type} (key : String) : List (String × β) → Option β
  | [] => none
  | p :: rest => if p.1 = key then some p.2 else assocLookup key rest

/-- JavaScript `String.prototype.toUpperCase` (character-wise upper-casing). -/
def jsToUpper (s : String) : String := String.mk (s.data.map Char.toUpper)

/-- The country codes of `COUNTRY_CONFIG` (src/script.js lines 16-101). -/
inductive CountryCode where
  | VN
  | TH
  | PH
  | ID
  | JP
  | KR
deriving DecidableEq, Repr

/-- The `fallbackRate` tables of `COUNTRY_CONFIG` (src/script.js lines 29,
43, 57, 71, 85, 99). -/
def fallbackRate : CountryCode → List (String × ℚ)
  | .VN => [("USD", 24500), ("EUR", 26500), ("GBP", 31000), ("AUD", 16000),
            ("CAD", 18000), ("RON", 5300)]
  | .TH => [("USD", 35), ("EUR", 38), ("GBP", 44), ("AUD", 23),
            ("CAD", 26), ("RON", 15/2)]
  | .PH => [("USD", 56), ("EUR", 61), ("GBP", 71), ("AUD", 37),
            ("CAD", 41), ("RON", 12)]
  | .ID => [("USD", 15700), ("EUR", 17000), ("GBP", 19800), ("AUD", 10300),
            ("CAD", 11500), ("RON", 3400)]
  | .JP => [("USD", 149), ("EUR", 162), ("GBP", 188), ("AUD", 98),
            ("CAD", 109), ("RON", 32)]
  | .KR => [("USD", 1320), ("EUR", 1430), ("GBP", 1670), ("AUD", 870),
            ("CAD", 970), ("RON", 285)]

/-- The `config.fallbackRate.USD` entry.  Every profile in the source defines
a `USD` entry, so the `getD 0` default is never reached. -/
def usdFallback (c : CountryCode) : ℚ :=
  (assocLookup "USD" (fallbackRate c)).getD 0

/-- Outcome of the live-rate `fetch` in `fetchExchangeRate`: either the whole
`try` block throws (transport failure, non-ok response, JSON failure, or the
missing / non-numeric `rates` field, all of which reach the `catch`), or it
yields the numeric `data.rates[toCurrency]` value. -/
inductive LiveOutcome where
  | fail
  | rate (r : JSNum)
deriving DecidableEq, Repr

/-- The `LIFESTYLE_MATRIX` table (src/script.js lines 6-13). -/
def LIFESTYLE_MATRIX : List (String × List (String × ℚ)) :=
  [("VN", [("budget", 12000000), ("standard", 25000000), ("highlife", 60000000)]),
   ("TH", [("budget", 25000), ("standard", 50000), ("highlife", 120000)]),
   ("PH", [("budget", 35000), ("standard", 60000), ("highlife", 150000)]),
   ("ID", [("budget", 10000000), ("standard", 20000000), ("highlife", 50000000)]),
   ("JP", [("budget", 180000), ("standard", 350000), ("highlife", 800000)]),
   ("KR", [("budget", 1500000), ("standard", 2500000), ("highlife", 5500000)])]

namespace NomadFlow

/-- Result object of `NomadFlow.calculateLongevity` (src/script.js line 149).
`months`, `years` and `daysApprox` are always integer-valued; `remainder`
is a full JavaScript number because the sentinel branch returns the coerced
budget unchanged, which may be non-finite. -/
structure LongevityResult where
  months : ℤ
  years : ℤ
  remainder : JSNum
  daysApprox : ℤ
deriving DecidableEq, Repr

/-- Embedding of `NomadFlow.calculateLongevity` (src/script.js lines 137-150).  Inputs are
already-coerced JavaScript numbers (`Number` on a number is the identity). -/
def calculateLongevity (budgetLocal monthlyExpense : JSNum) : LongevityResult :=
  match budgetLocal, monthlyExpense with
  | .fin budget, .fin monthly =>
    if monthly ≤ 0 then
      { months := 0, years := 0, remainder := .fin budget, daysApprox := 0 }
    else
      let monthsFloat := budget / monthly
      let months := jsFloor monthsFloat
      let years := jsFloor ((months : ℚ) / 12)
      let remainder := jsRound (budget - months * monthly)
      let dailyExpense := monthly / 30
      let daysApprox := jsFloor ((remainder : ℚ) / (if dailyExpense = 0 then 1 else dailyExpense))
      { months := months, years := years, remainder := .fin remainder,
        daysApprox := daysApprox }
  | b, _ => { months := 0, years := 0, remainder := b, daysApprox := 0 }

/-- Embedding of `NomadFlow.convertAmount` (src/script.js lines 129-134): `0` when either
input is non-finite, else `Math.round(amount * rate)`. -/
def convertAmount (amount rate : JSNum) : ℤ :=
  match amount, rate with
  | .fin n, .fin r => jsRound (n * r)
  | _, _ => 0

/-- Embedding of `NomadFlow.fetchExchangeRate` (src/script.js lines 111-126), with the
network interaction abstracted as a `LiveOutcome` and the ambient
`currentCountry` passed explicitly.  The `catch` branch evaluates
`config.fallbackRate[fromCurrency.toUpperCase()] || config.fallbackRate.USD`. -/
def fetchExchangeRate (outcome : LiveOutcome) (fromCurrency : String)
    (currentCountry : CountryCode) : JSNum :=
  match outcome with
  | .rate r => r
  | .fail =>
      .fin (jsOrQ (assocLookup (jsToUpper fromCurrency)
        (fallbackRate currentCountry)) (usdFallback currentCountry))

/-- Embedding of `NomadFlow.getLifestyleAmount` (src/script.js lines 168-170):
`LIFESTYLE_MATRIX[countryCode]?.[lifestyle] ||
 LIFESTYLE_MATRIX[countryCode]?.standard || 0`. -/
def getLifestyleAmount (countryCode lifestyle : String) : ℚ :=
  jsOrQ ((assocLookup countryCode LIFESTYLE_MATRIX).bind
      (fun tiers => assocLookup lifestyle tiers))
    (jsOrQ ((assocLookup countryCode LIFESTYLE_MATRIX).bind
      (fun tiers => assocLookup "standard" tiers)) 0)

end NomadFlow

namespace BudgetUtils

/-- Result object of `BudgetUtils.calculateLongevity` (src/script.js line 427);
the remainder field is named `remainderVND` there. -/
structure LongevityResult where
  months : ℤ
  years : ℤ
  remainderVND : JSNum
  daysApprox : ℤ
deriving DecidableEq, Repr

/-- Embedding of `BudgetUtils.calculateLongevity` (src/script.js lines 414-428). -/
def calculateLongevity (budgetVND monthlyExpenseVND : JSNum) : LongevityResult :=
  match budgetVND, monthlyExpenseVND with
  | .fin budget, .fin monthly =>
    if monthly ≤ 0 then
      { months := 0, years := 0, remainderVND := .fin budget, daysApprox := 0 }
    else
      let monthsFloat := budget / monthly
      let months := jsFloor monthsFloat
      let years := jsFloor ((months : ℚ) / 12)
      let remainderVND := jsRound (budget - months * monthly)
      let dailyExpense := monthly / 30
      let daysApprox := jsFloor ((remainderVND : ℚ) / (if dailyExpense = 0 then 1 else dailyExpense))
      { months := months, years := years, remainderVND := .fin remainderVND,
        daysApprox := daysApprox }
  | b, _ => { months := 0, years := 0, remainderVND := b, daysApprox := 0 }

/-- Embedding of `BudgetUtils.convertToVND` (src/script.js lines 407-412). -/
def convertToVND (amount rate : JSNum) : ℤ :=
  match amount, rate with
  | .fin n, .fin r => jsRound (n * r)
  | _, _ => 0

end BudgetUtils

/-! Bridge lemmas between the computable embedding and `Int.floor`. -/

theorem jsFloor_eq_floor (q : ℚ) : jsFloor q = ⌊q⌋ :=
  (Rat.floor_def' q).trans Rat.floor_def.symm

theorem jsRound_eq (q : ℚ) : jsRound q = ⌊q + 1/2⌋ := jsFloor_eq_floor (q + 1/2)

/-- Rounding moves a value by at most one half. -/
theorem jsRound_sub_le (q : ℚ) : |(jsRound q : ℚ) - q| ≤ 1/2 := by
  rw [jsRound_eq]
  have h1 : (⌊q + 1/2⌋ : ℚ) ≤ q + 1/2 := Int.floor_le _
  have h2 : q + 1/2 - 1 < ⌊q + 1/2⌋ := Int.sub_one_lt_floor _
  rw [abs_le]
  constructor <;> linarith

/-- Unfolding of the non-sentinel branch of `NomadFlow.calculateLongevity`. -/
theorem calculateLongevity_run (budget monthly : ℚ) (hm : 0 < monthly) :
    NomadFlow.calculateLongevity (.fin budget) (.fin monthly) =
      { months := ⌊budget / monthly⌋,
        years := ⌊(⌊budget / monthly⌋ : ℚ) / 12⌋,
        remainder := .fin ⌊budget - ⌊budget / monthly⌋ * monthly + 1/2⌋,
        daysApprox := ⌊(⌊budget - ⌊budget / monthly⌋ * monthly + 1/2⌋ : ℚ) /
          (monthly / 30)⌋ } := by
  have h30 : ¬ (monthly / 30 = 0) := div_ne_zero hm.ne' (by norm_num)
  simp only [NomadFlow.calculateLongevity]
  rw [if_neg (not_le.mpr hm)]
  simp only [jsRound, jsFloor_eq_floor, if_neg h30]

/-- The exact pre-rounding remainder lies in `[0, monthly)`. -/
theorem floor_rem_bounds (budget monthly : ℚ) (hm : 0 < monthly) :
    0 ≤ budget - ⌊budget / monthly⌋ * monthly ∧
      budget - ⌊budget / monthly⌋ * monthly < monthly := by
  have h1 : (⌊budget / monthly⌋ : ℚ) ≤ budget / monthly := Int.floor_le _
  have h2 : budget / monthly < ⌊budget / monthly⌋ + 1 := Int.lt_floor_add_one _
  constructor
  · have h3 : (⌊budget / monthly⌋ : ℚ) * monthly ≤ budget := (le_div_iff₀ hm).mp h1
    linarith
  · have h4 : budget < ((⌊budget / monthly⌋ : ℚ) + 1) * monthly := (div_lt_iff₀ hm).mp h2
    rw [add_mul, one_mul] at h4
    linarith

/-- C1: for finite `budget ≥ 0` and finite `monthly > 0`, `calculateLongevity`
returns `months = ⌊budget / monthly⌋`, `years = ⌊months / 12⌋`, and a
remainder equal to `round(budget - months * monthly)` that reconstructs the
budget up to rounding (within one half) and lies in `[0, monthly)` up to a
tolerance of one unit. -/
theorem claim1_longevity_spec (budget monthly : ℚ) (_hb : 0 ≤ budget)
    (hm : 0 < monthly) :
    (NomadFlow.calculateLongevity (.fin budget) (.fin monthly)).months =
        ⌊budget / monthly⌋ ∧
    (NomadFlow.calculateLongevity (.fin budget) (.fin monthly)).years =
        ⌊((NomadFlow.calculateLongevity (.fin budget) (.fin monthly)).months : ℚ)
          / 12⌋ ∧
    ∃ r : ℤ,
      (NomadFlow.calculateLongevity (.fin budget) (.fin monthly)).remainder =
          .fin r ∧
      r = jsRound (budget - ⌊budget / monthly⌋ * monthly) ∧
      |(⌊budget / monthly⌋ : ℚ) * monthly + r - budget| ≤ 1/2 ∧
      0 ≤ r ∧ (r : ℚ) < monthly + 1 := by
  rw [calculateLongevity_run budget monthly hm]
  obtain ⟨hx0, hx1⟩ := floor_rem_bounds budget monthly hm
  refine ⟨rfl, rfl, ⌊budget - ⌊budget / monthly⌋ * monthly + 1/2⌋, rfl,
    (jsRound_eq _).symm, ?_, ?_, ?_⟩
  · have h := jsRound_sub_le (budget - ⌊budget / monthly⌋ * monthly)
    rw [jsRound_eq] at h
    calc |(⌊budget / monthly⌋ : ℚ) * monthly +
            ⌊budget - ⌊budget / monthly⌋ * monthly + 1/2⌋ - budget|
        = |(⌊budget - ⌊budget / monthly⌋ * monthly + 1/2⌋ : ℚ) -
            (budget - ⌊budget / monthly⌋ * monthly)| := by ring_nf
      _ ≤ 1/2 := h
  · have : (0 : ℚ) ≤ budget - ⌊budget / monthly⌋ * monthly + 1/2 := by linarith
    exact_mod_cast Int.le_floor.mpr (by exact_mod_cast this)
  · have h := Int.floor_le (budget - ⌊budget / monthly⌋ * monthly + 1/2)
    linarith

/-- Witness for C1 at `budget = 310000000`, `monthly = 25000000`. -/
theorem claim1_witness :
    (NomadFlow.calculateLongevity (.fin 310000000) (.fin 25000000)).months =
        ⌊(310000000 : ℚ) / 25000000⌋ ∧
    (NomadFlow.calculateLongevity (.fin 310000000) (.fin 25000000)).years =
        ⌊((NomadFlow.calculateLongevity (.fin 310000000) (.fin 25000000)).months
          : ℚ) / 12⌋ ∧
    ∃ r : ℤ,
      (NomadFlow.calculateLongevity (.fin 310000000) (.fin 25000000)).remainder =
          .fin r ∧
      r = jsRound (310000000 - ⌊(310000000 : ℚ) / 25000000⌋ * 25000000) ∧
      |(⌊(310000000 : ℚ) / 25000000⌋ : ℚ) * 25000000 + r - 310000000| ≤ 1/2 ∧
      0 ≤ r ∧ (r : ℚ) < 25000000 + 1 :=
  claim1_longevity_spec 310000000 25000000 (by norm_num) (by norm_num)

/-- C8: the two end-to-end longevity scenarios evaluate exactly as stated. -/
theorem claim8_scenarios :
    NomadFlow.calculateLongevity (.fin 300000000) (.fin 25000000) =
      { months := 12, years := 1, remainder := .fin 0, daysApprox := 0 } ∧
    NomadFlow.calculateLongevity (.fin 310000000) (.fin 25000000) =
      { months := 12, years := 1, remainder := .fin 10000000, daysApprox := 12 } := by
  constructor
  · rw [calculateLongevity_run 300000000 25000000 (by norm_num)]
    have h1 : ⌊(300000000 : ℚ) / 25000000⌋ = (12 : ℤ) := by
      norm_num [Int.floor_eq_iff]
    rw [h1]
    have h2 : ⌊((12 : ℤ) : ℚ) / 12⌋ = (1 : ℤ) := by norm_num [Int.floor_eq_iff]
    have h3 : ⌊(300000000 : ℚ) - ((12 : ℤ) : ℚ) * 25000000 + 1/2⌋ = (0 : ℤ) := by
      norm_num [Int.floor_eq_iff]
    rw [h2, h3]
    have h4 : ⌊((0 : ℤ) : ℚ) / ((25000000 : ℚ) / 30)⌋ = (0 : ℤ) := by
      norm_num
    rw [h4]
    norm_num
  · rw [calculateLongevity_run 310000000 25000000 (by norm_num)]
    have h1 : ⌊(310000000 : ℚ) / 25000000⌋ = (12 : ℤ) := by
      norm_num [Int.floor_eq_iff]
    rw [h1]
    have h2 : ⌊((12 : ℤ) : ℚ) / 12⌋ = (1 : ℤ) := by norm_num [Int.floor_eq_iff]
    have h3 : ⌊(310000000 : ℚ) - ((12 : ℤ) : ℚ) * 25000000 + 1/2⌋ =
        (10000000 : ℤ) := by
      norm_num [Int.floor_eq_iff]
    rw [h2, h3]
    have h4 : ⌊((10000000 : ℤ) : ℚ) / ((25000000 : ℚ) / 30)⌋ = (12 : ℤ) := by
      norm_num [Int.floor_eq_iff]
    rw [h4]
    norm_num

/-- C2: whenever either input is non-finite or the monthly expense is not
positive, `calculateLongevity` returns the sentinel `months = 0`,
`years = 0`, `daysApprox = 0`. -/
theorem claim2_sentinel (b m : JSNum)
    (h : b.isFinite = false ∨ m.isFinite = false ∨
      ∃ q : ℚ, m = .fin q ∧ q ≤ 0) :
    (NomadFlow.calculateLongevity b m).months = 0 ∧
    (NomadFlow.calculateLongevity b m).years = 0 ∧
    (NomadFlow.calculateLongevity b m).daysApprox = 0 := by
  cases b <;> cases m <;>
    simp_all [NomadFlow.calculateLongevity, JSNum.isFinite]

/-- Witness for C2 at `budget = 5`, `monthly = 0`. -/
theorem claim2_witness :
    (NomadFlow.calculateLongevity (.fin 5) (.fin 0)).months = 0 ∧
    (NomadFlow.calculateLongevity (.fin 5) (.fin 0)).years = 0 ∧
    (NomadFlow.calculateLongevity (.fin 5) (.fin 0)).daysApprox = 0 :=
  claim2_sentinel (.fin 5) (.fin 0) (Or.inr (Or.inr ⟨0, rfl, le_refl 0⟩))

/-- C3 counterexample: a NaN budget with a valid monthly expense takes the
sentinel branch, and the returned remainder is NaN, not 0 — a non-finite
input does propagate into the result. -/
theorem claim3_counterexample :
    (NomadFlow.calculateLongevity JSNum.nan (JSNum.fin 1)).remainder =
        JSNum.nan ∧
    (NomadFlow.calculateLongevity JSNum.nan (JSNum.fin 1)).remainder.isFinite =
        false := by
  exact ⟨rfl, rfl⟩

/-- C3 amended: the sentinel branch stores the coerced budget unchanged in
the remainder field, so the remainder is finite exactly when the budget
input is finite; a non-finite budget is propagated there verbatim. -/
theorem claim3_remainder_propagation (b m : JSNum) :
    (NomadFlow.calculateLongevity b m).remainder.isFinite = b.isFinite ∧
    (b.isFinite = false → (NomadFlow.calculateLongevity b m).remainder = b) := by
  cases b <;> cases m <;>
    simp only [NomadFlow.calculateLongevity] <;> (try split_ifs) <;>
    simp [JSNum.isFinite]

/-- Witness for C3 amended at a NaN budget. -/
theorem claim3_witness :
    (NomadFlow.calculateLongevity JSNum.nan JSNum.inf).remainder = JSNum.nan :=
  (claim3_remainder_propagation JSNum.nan JSNum.inf).2 rfl

/-- C10: the two longevity implementations agree on every field for every
input pair (`remainder` corresponds to `remainderVND`). -/
theorem claim10_equivalence (b m : JSNum) :
    (NomadFlow.calculateLongevity b m).months =
        (BudgetUtils.calculateLongevity b m).months ∧
    (NomadFlow.calculateLongevity b m).years =
        (BudgetUtils.calculateLongevity b m).years ∧
    (NomadFlow.calculateLongevity b m).remainder =
        (BudgetUtils.calculateLongevity b m).remainderVND ∧
    (NomadFlow.calculateLongevity b m).daysApprox =
        (BudgetUtils.calculateLongevity b m).daysApprox := by
  cases b <;> cases m <;>
    simp only [NomadFlow.calculateLongevity, BudgetUtils.calculateLongevity] <;>
    (try split_ifs) <;> simp

/-- C9: with a positive finite monthly expense, the remainder returned by the
non-sentinel branch is non-negative (and below `monthly` up to one unit) and
`daysApprox` is non-negative, for every finite budget including negative
ones; a negative budget yields a negative months count. -/
theorem claim9_nonneg_invariants (budget monthly : ℚ) (hm : 0 < monthly) :
    (∃ r : ℤ,
      (NomadFlow.calculateLongevity (.fin budget) (.fin monthly)).remainder =
          .fin r ∧ 0 ≤ r ∧ (r : ℚ) < monthly + 1) ∧
    0 ≤ (NomadFlow.calculateLongevity (.fin budget) (.fin monthly)).daysApprox ∧
    (budget < 0 →
      (NomadFlow.calculateLongevity (.fin budget) (.fin monthly)).months < 0) := by
  rw [calculateLongevity_run budget monthly hm]
  obtain ⟨hx0, hx1⟩ := floor_rem_bounds budget monthly hm
  have hr0 : (0 : ℤ) ≤ ⌊budget - ⌊budget / monthly⌋ * monthly + 1/2⌋ := by
    have : (0 : ℚ) ≤ budget - ⌊budget / monthly⌋ * monthly + 1/2 := by linarith
    exact Int.le_floor.mpr (by exact_mod_cast this)
  refine ⟨⟨⌊budget - ⌊budget / monthly⌋ * monthly + 1/2⌋, rfl, hr0, ?_⟩, ?_, ?_⟩
  · have h := Int.floor_le (budget - ⌊budget / monthly⌋ * monthly + 1/2)
    linarith
  · refine Int.le_floor.mpr ?_
    have h30 : (0 : ℚ) < monthly / 30 := by positivity
    have : (0 : ℚ) ≤
        (⌊budget - ⌊budget / monthly⌋ * monthly + 1/2⌋ : ℚ) / (monthly / 30) :=
      div_nonneg (by exact_mod_cast hr0) h30.le
    exact_mod_cast this
  · intro hneg
    have : budget / monthly < 0 := div_neg_of_neg_of_pos hneg hm
    exact_mod_cast Int.floor_lt.mpr (by exact_mod_cast this)

/-- Witness for C9 at `budget = -7`, `monthly = 2`. -/
theorem claim9_witness :
    (∃ r : ℤ,
      (NomadFlow.calculateLongevity (.fin (-7)) (.fin 2)).remainder =
          .fin r ∧ 0 ≤ r ∧ (r : ℚ) < 2 + 1) ∧
    0 ≤ (NomadFlow.calculateLongevity (.fin (-7)) (.fin 2)).daysApprox ∧
    ((-7 : ℚ) < 0 →
      (NomadFlow.calculateLongevity (.fin (-7)) (.fin 2)).months < 0) :=
  claim9_nonneg_invariants (-7) 2 (by norm_num)

/-- C4: `convertAmount` returns 0 on any non-finite input, returns the
platform rounding `round(amount * rate)` on finite inputs, and maps the
concrete pair `(1000, 24500)` to `24500000`. -/
theorem claim4_convert (a r : JSNum)
    (h : a.isFinite = false ∨ r.isFinite = false) :
    NomadFlow.convertAmount a r = 0 ∧
    (∀ n q : ℚ, NomadFlow.convertAmount (.fin n) (.fin q) = jsRound (n * q)) ∧
    NomadFlow.convertAmount (.fin 1000) (.fin 24500) = 24500000 := by
  refine ⟨?_, fun n q => rfl, ?_⟩
  · cases a <;> cases m₀ : r <;>
      simp_all [NomadFlow.convertAmount, JSNum.isFinite]
  · show jsRound ((1000 : ℚ) * 24500) = 24500000
    rw [jsRound_eq]
    norm_num [Int.floor_eq_iff]

/-- Witness for C4 at a NaN amount. -/
theorem claim4_witness :
    NomadFlow.convertAmount JSNum.nan (.fin 3) = 0 ∧
    (∀ n q : ℚ, NomadFlow.convertAmount (.fin n) (.fin q) = jsRound (n * q)) ∧
    NomadFlow.convertAmount (.fin 1000) (.fin 24500) = 24500000 :=
  claim4_convert JSNum.nan (.fin 3) (Or.inl rfl)

/-- C7: `convertAmount` is linear up to accumulated rounding: scaling the
amount by a positive integer `k` changes the result by at most `(k + 1) / 2`
from `k` times the unscaled result. -/
theorem claim7_linear_up_to_rounding (a r : ℚ) (k : ℕ) (_hk : 0 < k) :
    |(NomadFlow.convertAmount (.fin (k * a)) (.fin r) : ℚ) -
        k * NomadFlow.convertAmount (.fin a) (.fin r)| ≤ (k + 1) / 2 := by
  show |(jsRound ((k : ℚ) * a * r) : ℚ) - k * jsRound (a * r)| ≤ (k + 1) / 2
  have e1 := jsRound_sub_le ((k : ℚ) * a * r)
  have e2 := jsRound_sub_le (a * r)
  have tri : |(jsRound ((k : ℚ) * a * r) : ℚ) - k * jsRound (a * r)| ≤
      |(jsRound ((k : ℚ) * a * r) : ℚ) - (k : ℚ) * a * r| +
        |(k : ℚ) * a * r - k * jsRound (a * r)| := abs_sub_le _ _ _
  have e3 : |(k : ℚ) * a * r - k * jsRound (a * r)| =
      (k : ℚ) * |(a * r : ℚ) - jsRound (a * r)| := by
    rw [mul_assoc, ← mul_sub, abs_mul, abs_of_nonneg (by positivity : (0:ℚ) ≤ (k : ℚ))]
  have e2' : |(a * r : ℚ) - jsRound (a * r)| ≤ 1/2 := by
    rw [abs_sub_comm]; exact e2
  have e4 : (k : ℚ) * |(a * r : ℚ) - jsRound (a * r)| ≤ (k : ℚ) * (1/2) :=
    mul_le_mul_of_nonneg_left e2' (by positivity)
  calc |(jsRound ((k : ℚ) * a * r) : ℚ) - k * jsRound (a * r)|
      ≤ |(jsRound ((k : ℚ) * a * r) : ℚ) - (k : ℚ) * a * r| +
          |(k : ℚ) * a * r - k * jsRound (a * r)| := tri
    _ ≤ 1/2 + (k : ℚ) * (1/2) := by rw [e3]; exact add_le_add e1 e4
    _ = ((k : ℚ) + 1) / 2 := by ring

/-- Witness for C7 at `a = 3/2`, `r = 1`, `k = 2`. -/
theorem claim7_witness :
    |(NomadFlow.convertAmount (.fin ((2 : ℕ) * (3/2))) (.fin 1) : ℚ) -
        (2 : ℕ) * NomadFlow.convertAmount (.fin (3/2)) (.fin 1)| ≤
      ((2 : ℕ) + 1) / 2 :=
  claim7_linear_up_to_rounding (3/2) 1 2 (by norm_num)

/-- A successful `assocLookup` returns a value of the list. -/
theorem assocLookup_prop {β : Type} (P : β → Prop) (key : String) :
    ∀ l : List (String × β), (∀ p ∈ l, P p.2) →
      ∀ v, assocLookup key l = some v → P v := by
  intro l
  induction l with
  | nil => intro _ v hv; simp [assocLookup] at hv
  | cons p rest ih =>
      intro h v hv
      simp only [assocLookup] at hv
      split_ifs at hv
      · cases hv
        exact h p (List.mem_cons_self p rest)
      · exact ih (fun q hq => h q (List.mem_cons_of_mem p hq)) v hv

/-- Every configured fallback exchange rate is positive. -/
theorem fallbackRate_pos (c : CountryCode) :
    ∀ p ∈ fallbackRate c, (0 : ℚ) < p.2 := by
  cases c <;> intro p hp <;> simp only [fallbackRate, List.mem_cons,
    List.not_mem_nil, or_false] at hp <;>
    rcases hp with rfl | rfl | rfl | rfl | rfl | rfl <;> norm_num

/-- Every lifestyle amount in `LIFESTYLE_MATRIX` is positive. -/
theorem lifestyleAmount_pos (tiers : List (String × ℚ))
    (htiers : ∃ code : String, (code, tiers) ∈ LIFESTYLE_MATRIX) :
    ∀ p ∈ tiers, (0 : ℚ) < p.2 := by
  obtain ⟨code, hcode⟩ := htiers
  simp only [LIFESTYLE_MATRIX, List.mem_cons, List.not_mem_nil, or_false,
    Prod.mk.injEq] at hcode
  rcases hcode with ⟨-, rfl⟩ | ⟨-, rfl⟩ | ⟨-, rfl⟩ | ⟨-, rfl⟩ | ⟨-, rfl⟩ |
    ⟨-, rfl⟩ <;> intro p hp <;>
    simp only [List.mem_cons, List.not_mem_nil, or_false] at hp <;>
    rcases hp with rfl | rfl | rfl <;> norm_num

/-- A successful country lookup in `LIFESTYLE_MATRIX` yields a member. -/
theorem assocLookup_matrix_mem (code : String)
    (tiers : List (String × ℚ))
    (h : assocLookup code LIFESTYLE_MATRIX = some tiers) :
    ∃ c : String, (c, tiers) ∈ LIFESTYLE_MATRIX := by
  refine assocLookup_prop (fun t => ∃ c : String, (c, t) ∈ LIFESTYLE_MATRIX)
    code LIFESTYLE_MATRIX ?_ tiers h
  intro p hp
  exact ⟨p.1, hp⟩

/-- C5: when the live rate lookup fails, `fetchExchangeRate` returns the
profile's configured fallback rate for the upper-cased source currency, or
the profile's `USD` entry when that currency is absent from the table. -/
theorem claim5_fallback (c : CountryCode) (fromCurrency : String) :
    (∀ q : ℚ,
      assocLookup (jsToUpper fromCurrency) (fallbackRate c) = some q →
        NomadFlow.fetchExchangeRate .fail fromCurrency c = .fin q) ∧
    (assocLookup (jsToUpper fromCurrency) (fallbackRate c) = none →
      NomadFlow.fetchExchangeRate .fail fromCurrency c =
        .fin (usdFallback c)) := by
  constructor
  · intro q hq
    have hpos : (0 : ℚ) < q :=
      assocLookup_prop (fun v => (0 : ℚ) < v) (jsToUpper fromCurrency)
        (fallbackRate c) (fallbackRate_pos c) q hq
    simp [NomadFlow.fetchExchangeRate, jsOrQ, hq, hpos.ne']
  · intro hq
    simp [NomadFlow.fetchExchangeRate, jsOrQ, hq]

/-- Witness for C5: `"usd"` resolves to Vietnam's configured USD rate, and an
unknown currency falls back to the profile's USD entry. -/
theorem claim5_witness :
    NomadFlow.fetchExchangeRate .fail "usd" CountryCode.VN = .fin 24500 ∧
    NomadFlow.fetchExchangeRate .fail "xyz" CountryCode.VN =
      .fin (usdFallback CountryCode.VN) :=
  ⟨(claim5_fallback CountryCode.VN "usd").1 24500 (by rfl),
   (claim5_fallback CountryCode.VN "xyz").2 (by rfl)⟩

/-- C6: `getLifestyleAmount` returns the amount mapped to the requested tier;
when the tier is absent it returns the `"standard"` amount; when
`"standard"` is also absent, or the country code is unknown, it returns 0. -/
theorem claim6_lifestyle (countryCode lifestyle : String) :
    (∀ tiers q, assocLookup countryCode LIFESTYLE_MATRIX = some tiers →
      assocLookup lifestyle tiers = some q →
        NomadFlow.getLifestyleAmount countryCode lifestyle = q) ∧
    (∀ tiers st, assocLookup countryCode LIFESTYLE_MATRIX = some tiers →
      assocLookup lifestyle tiers = none →
      assocLookup "standard" tiers = some st →
        NomadFlow.getLifestyleAmount countryCode lifestyle = st) ∧
    (∀ tiers, assocLookup countryCode LIFESTYLE_MATRIX = some tiers →
      assocLookup lifestyle tiers = none →
      assocLookup "standard" tiers = none →
        NomadFlow.getLifestyleAmount countryCode lifestyle = 0) ∧
    (assocLookup countryCode LIFESTYLE_MATRIX = none →
      NomadFlow.getLifestyleAmount countryCode lifestyle = 0) := by
  refine ⟨?_, ?_, ?_, ?_⟩
  · intro tiers q htiers hq
    have hpos : (0 : ℚ) < q :=
      assocLookup_prop (fun v => (0 : ℚ) < v) lifestyle tiers
        (lifestyleAmount_pos tiers (assocLookup_matrix_mem _ _ htiers)) q hq
    simp [NomadFlow.getLifestyleAmount, jsOrQ, htiers, hq, hpos.ne']
  · intro tiers st htiers hq hst
    have hpos : (0 : ℚ) < st :=
      assocLookup_prop (fun v => (0 : ℚ) < v) "standard" tiers
        (lifestyleAmount_pos tiers (assocLookup_matrix_mem _ _ htiers)) st hst
    simp [NomadFlow.getLifestyleAmount, jsOrQ, htiers, hq, hst, hpos.ne']
  · intro tiers htiers hq hst
    simp [NomadFlow.getLifestyleAmount, jsOrQ, htiers, hq, hst]
  · intro htiers
    simp [NomadFlow.getLifestyleAmount, jsOrQ, htiers]

/-- Witness for C6: a present tier, a missing tier falling back to
`"standard"`, and an unknown country code. -/
theorem claim6_witness :
    NomadFlow.getLifestyleAmount "VN" "highlife" = 60000000 ∧
    NomadFlow.getLifestyleAmount "TH" "luxury" = 50000 ∧
    NomadFlow.getLifestyleAmount "XX" "standard" = 0 :=
  ⟨(claim6_lifestyle "VN" "highlife").1
      [("budget", 12000000), ("standard", 25000000), ("highlife", 60000000)]
      60000000 (by rfl) (by rfl),
   (claim6_lifestyle "TH" "luxury").2.1
      [("budget", 25000), ("standard", 50000), ("highlife", 120000)]
      50000 (by rfl) (by rfl) (by rfl),
   (claim6_lifestyle "XX" "standard").2.2.2 (by rfl)⟩
